import Mathlib

/-!
Shallow embedding of the Clubworx API client (src/index.js) and proofs of the
frozen claims about it.

JavaScript values that the client manipulates (JSON payloads, header values,
member records, session fields) are modelled by the inductive type `JSValue`.
JavaScript truthiness, property access, optional chaining, `||`, array
indexing and object assignment are modelled by small total functions; places
where the JavaScript program would throw a `TypeError` (for example calling
`.map` on a non-array) are modelled with `Option`/`Except`.

The network is modelled as an oracle: a function from the request data to the
`Response` the transport would deliver.  `JSON.parse` and
`encodeURIComponent` are platform functions, not code of this repository, and
are passed as parameters (`parse`, `enc`) to the operations that use them.
-/

namespace Clubworx

/-- Model of a JavaScript value (JSON values plus `undefined`).  Numbers are
modelled as integers; the claims never exercise fractional values. -/
inductive JSValue : Type where
  | vNull : JSValue
  | vUndefined : JSValue
  | vBool : Bool → JSValue
  | vNum : Int → JSValue
  | vStr : String → JSValue
  | vArr : List JSValue → JSValue
  | vObj : List (String × JSValue) → JSValue

/-- JavaScript truthiness: `null`, `undefined`, `false`, `0` and `""` are
falsy; every array and object is truthy. -/
def truthy : JSValue → Bool
  | .vNull => false
  | .vUndefined => false
  | .vBool b => b
  | .vNum n => n != 0
  | .vStr s => s != ""
  | .vArr _ => true
  | .vObj _ => true

/-- Property access `v.k` on an object value.  Missing properties and access
on non-object primitives yield `undefined`.  (Access on `null`/`undefined`
is a `TypeError` in JavaScript; every claim restricts receivers to values on
which access succeeds, so that case is also mapped to `undefined` here.) -/
def getField (v : JSValue) (k : String) : JSValue :=
  match v with
  | .vObj fs =>
    match List.lookup k fs with
    | some x => x
    | none => .vUndefined
  | _ => .vUndefined

/-- Optional chaining `v?.k`: short-circuits to `undefined` on
`null`/`undefined`, otherwise accesses the property. -/
def optChain (v : JSValue) (k : String) : JSValue :=
  match v with
  | .vNull => .vUndefined
  | .vUndefined => .vUndefined
  | v => getField v k

/-- JavaScript `a || b`: the first operand when truthy, otherwise the
second. -/
def jsOr (a b : JSValue) : JSValue :=
  if truthy a then a else b

/-- Strict test `v === undefined`. -/
def isUndef : JSValue → Bool
  | .vUndefined => true
  | _ => false

/-- Lookup of a property in an object value, `none` when the receiver is not
an object or the key is absent (used to state theorems about built
objects). -/
def objLookup (v : JSValue) (k : String) : Option JSValue :=
  match v with
  | .vObj fs => List.lookup k fs
  | _ => none

/-- Property assignment `obj[k] = v` on an object represented as an ordered
association list, with JavaScript object semantics: an existing key keeps
its position and gets the new value, a new key is appended. -/
def objSet (fs : List (String × JSValue)) (k : String) (v : JSValue) :
    List (String × JSValue) :=
  if fs.any (fun p => p.1 == k) then
    fs.map (fun p => if p.1 = k then (k, v) else p)
  else
    fs ++ [(k, v)]

/-- String coercion of a JavaScript value, used for computed property keys
and template-literal interpolation.  Accurate for the primitive values the
claims exercise; the array case (JavaScript joins the element strings with
commas) is abbreviated since no claim uses an array where a string is
coerced. -/
def jsKey : JSValue → String
  | .vStr s => s
  | .vNum n => toString n
  | .vBool b => cond b "true" "false"
  | .vNull => "null"
  | .vUndefined => "undefined"
  | .vArr _ => "<array>"
  | .vObj _ => "[object Object]"

/-- Indexing `v[i]` with a numeric index: array element, character of a
string (as a one-character string), numeric-keyed property of an object,
`undefined` otherwise. -/
def jsIndex (v : JSValue) (i : Nat) : JSValue :=
  match v with
  | .vArr xs => xs.getD i .vUndefined
  | .vStr s =>
    match s.data.get? i with
    | some c => .vStr (String.mk [c])
    | none => .vUndefined
  | .vObj fs =>
    match List.lookup (toString i) fs with
    | some x => x
    | none => .vUndefined
  | _ => .vUndefined

/-- One-level array flattening, the behaviour of `Array.prototype.flat()`
with its default depth. -/
def jsFlat : List JSValue → List JSValue
  | [] => []
  | .vArr ys :: rest => ys ++ jsFlat rest
  | v :: rest => v :: jsFlat rest

/-- View of a value as a string; `none` models the `TypeError` raised by
string methods on non-strings. -/
def asStr : JSValue → Option String
  | .vStr s => some s
  | _ => none

/-- View of a value as an array; `none` models the `TypeError` raised by
array methods (`.map`, `.flat`) on non-arrays. -/
def asArr : JSValue → Option (List JSValue)
  | .vArr xs => some xs
  | _ => none

/-- JavaScript `Array.prototype.map` with a callback that may throw: the
first failure aborts the whole traversal. -/
def mapOption {α β : Type} (f : α → Option β) : List α → Option (List β)
  | [] => some []
  | x :: xs =>
    match f x with
    | none => none
    | some y =>
      match mapOption f xs with
      | none => none
      | some ys => some (y :: ys)

/-- A session: the cookie jar and the gym identifier, exactly the two fields
stored by the `Session` constructor (src/index.js lines 163-167).  Both are
JavaScript values; `login` stores an array of strings and a JSON value, but
the constructor and `fromJSON` accept anything. -/
structure Session : Type where
  cookies : JSValue
  gymId : JSValue

/-- Error raised when restoring a session from malformed data
(src/index.js line 180). -/
inductive SessionError : Type where
  | invalidSessionData : SessionError

/-- Serialization of a session: exactly `{cookies, gymId}`
(src/index.js lines 170-175). -/
def Session.toJSON (s : Session) : JSValue :=
  .vObj [("cookies", s.cookies), ("gymId", s.gymId)]

/-- Restoration of a session from stored data (src/index.js lines 178-183):
`if (!data || !data.cookies || !data.gymId) throw`, then
`new Session(data.cookies, data.gymId)`. -/
def Session.fromJSON (data : JSValue) : Except SessionError Session :=
  if !(truthy data) || !(truthy (getField data "cookies"))
      || !(truthy (getField data "gymId")) then
    .error .invalidSessionData
  else
    .ok ⟨getField data "cookies", getField data "gymId"⟩

/-- The part of an HTTP response the client inspects: status code, the
`Location` header (absent or a string), the `Set-Cookie` headers (the empty
list models an absent header) and the body text. -/
structure Response : Type where
  statusCode : Nat
  location : Option String
  setCookie : List String
  body : String
deriving DecidableEq

/-- Errors raised during the login flow (src/index.js lines 70-160). -/
inductive LoginError : Type where
  | tooManyRedirects : LoginError
  | gymIdNotFound : LoginError
  | noLocation : LoginError

/-- Errors raised by authenticated accessor operations.  `typeFault` and
`parseFault` model an uncaught JavaScript `TypeError` respectively a
`JSON.parse` failure propagating to the caller. -/
inductive ApiError : Type where
  | sessionExpired : ApiError
  | typeFault : ApiError
  | parseFault : ApiError

/-- Index of the first occurrence of `needle` in `hay`, over character
lists. -/
def findSub (needle : List Char) : List Char → Option Nat
  | [] => if needle.isEmpty then some 0 else none
  | hay@(_ :: t) =>
    if needle.isPrefixOf hay then some 0
    else (findSub needle t).map (· + 1)

/-- JavaScript `hay.includes(needle)`: substring containment. -/
def containsSubstr (needle hay : String) : Bool :=
  (findSub needle.data hay.data).isSome

/-- A raw cookie trimmed to its `name=value` part: `c.split(';')[0]`, that
is, the characters before the first `;` (the whole string when there is
none). -/
def cookieFirstPart (c : String) : String :=
  String.mk (c.data.takeWhile (fun ch => ch ≠ ';'))

/-- The replay form of a cookie jar:
`cookies.map(c => c.split(';')[0]).join('; ')`
(src/index.js lines 81, 123 and 188). -/
def joinCookies (cs : List String) : String :=
  String.intercalate "; " (cs.map cookieFirstPart)

/-- Cookie header computed by `authenticatedRequest`
(src/index.js lines 187-189): the joined jar when the stored cookies are an
array (whose elements must be strings, otherwise `split` raises a
`TypeError`, modelled by `none`), and the stored value itself otherwise. -/
def sessionCookieHeader (s : Session) : Option JSValue :=
  match s.cookies with
  | .vArr xs => (mapOption asStr xs).map (fun ss => JSValue.vStr (joinCookies ss))
  | v => some v

/-- Header object built by `authenticatedRequest` (src/index.js lines
191-195): the literal `{'Accept': 'application/json', ...options.headers,
'Cookie': cookieHeader}`, with JavaScript object-spread semantics (later
keys override earlier ones in place). -/
def buildHeaders (callerHeaders : List (String × JSValue)) (cookieHeader : JSValue) :
    List (String × JSValue) :=
  objSet (callerHeaders.foldl (fun acc p => objSet acc p.1 p.2)
    [("Accept", JSValue.vStr "application/json")]) "Cookie" cookieHeader

/-- Expiry signal `response.headers['location']?.includes('/users/sign_in')`
(src/index.js line 204): `false` when the header is absent. -/
def locationHasSignIn (resp : Response) : Bool :=
  match resp.location with
  | some l => containsSubstr "/users/sign_in" l
  | none => false

/-- The transport as an oracle: the response the network delivers for a
given URL and header object. -/
def HttpEnv : Type := String → List (String × JSValue) → Response

/-- `Session.authenticatedRequest` (src/index.js lines 186-209): build the
cookie header and the merged header object, issue the request, then raise
`SessionExpired` on status 401, or on status 302 whose `Location` contains
`/users/sign_in`; return every other response unchanged.  The body is never
parsed here.  The session value is threaded through explicitly so that
state (non-)mutation is part of the statement of the operations. -/
def authenticatedRequest (env : HttpEnv) (s : Session) (url : String)
    (callerHeaders : List (String × JSValue)) : Except ApiError (Response × Session) :=
  match sessionCookieHeader s with
  | none => .error .typeFault
  | some ch =>
    let headers := buildHeaders callerHeaders ch
    let resp := env url headers
    if resp.statusCode = 401 then .error .sessionExpired
    else if resp.statusCode = 302 ∧ locationHasSignIn resp then .error .sessionExpired
    else .ok (resp, s)

/-- Redirect budget of the login flow (src/index.js line 113). -/
def maxRedirects : Nat := 5

/-- Resolution of a `Location` header against the service origin
(src/index.js lines 118-120). -/
def resolveLocation (u : String) : String :=
  if u.startsWith "http" then u else "https://app.clubworx.com" ++ u

/-- The redirect oracle: the response delivered for the `hopIndex`-th
request of the redirect chain, given the resolved target URL and the replay
cookie header.  (Indexing by hop keeps the oracle well-defined when the
same URL is visited twice.) -/
def RedirectEnv : Type := Nat → String → String → Response

/-- Redirect-following phase of `login` (src/index.js lines 109-149): while
the redirect budget is not exhausted, resolve the current `Location`,
request it replaying the accumulated cookies, append any `Set-Cookie`
headers to the jar, and stop on the first response that is neither 301 nor
302; after the loop, fail with `TooManyRedirects` when the budget was
exhausted.  The source guard `redirectCount < maxRedirects` is realized
structurally: `budget` is the number of loop iterations still allowed,
`maxRedirects - redirectCount`, and `redirectCount` (the hop index fed to
the oracle) is threaded alongside it.  A missing `Location` on a redirect
hop is the modelled form of the `TypeError` that `currentUrl.startsWith`
would raise on `undefined`. -/
def redirectLoop (env : RedirectEnv) : Nat → Nat → Option String → List String →
    Except LoginError (Response × List String)
  | 0, _, _, _ => .error .tooManyRedirects
  | _ + 1, _, none, _ => .error .noLocation
  | budget + 1, redirectCount, some u, cookies =>
    let targetUrl := resolveLocation u
    let cookieHeader := joinCookies cookies
    let resp := env redirectCount targetUrl cookieHeader
    let cookies2 := cookies ++ resp.setCookie
    if resp.statusCode ≠ 302 ∧ resp.statusCode ≠ 301 then
      .ok (resp, cookies2)
    else
      redirectLoop env budget (redirectCount + 1) resp.location cookies2

/-- Entry into the redirect-following phase (src/index.js lines 110-116):
the loop starts with `redirectCount = 0`, the full budget, the `Location`
of the login POST response and the cookies collected so far. -/
def loginRedirectPhase (env : RedirectEnv) (initialUrl : Option String)
    (cookies : List String) : Except LoginError (Response × List String) :=
  redirectLoop env maxRedirects 0 initialUrl cookies

/-- A placeholder response, used as the out-of-range default of a response
chain. -/
def emptyResponse : Response :=
  ⟨0, none, [], ""⟩

/-- A redirect oracle that replays a fixed chain of responses, hop by
hop. -/
def chainEnv (rs : List Response) : RedirectEnv :=
  fun i _ _ => rs.getD i emptyResponse

/-- The literal opened by the gym-data regex
`/<script id="gym-data" type="application\/json">([\s\S]+?)<\/script>/`
(src/index.js line 56). -/
def gymDataOpenTag : List Char :=
  "<script id=\"gym-data\" type=\"application/json\">".data

/-- The closing literal of the gym-data regex. -/
def gymDataCloseTag : List Char :=
  "</script>".data

/-- Leftmost match of the gym-data regex: scan for the first occurrence of
the opening tag that is followed, after at least one captured character, by
the closing tag; the lazy `+?` makes the capture end at the first such
closing tag.  When an opening-tag occurrence has no closing tag after it
the regex engine backtracks and the scan resumes one character further. -/
def scanGymData : List Char → Option String
  | [] => none
  | hay@(_ :: t) =>
    if gymDataOpenTag.isPrefixOf hay then
      match hay.drop gymDataOpenTag.length with
      | [] => scanGymData t
      | c :: rest =>
        match findSub gymDataCloseTag rest with
        | some j => some (String.mk (c :: rest.take j))
        | none => scanGymData t
    else scanGymData t

/-- Capture of the gym-data regex on a page, `none` when the pattern does
not match. -/
def findGymDataBlock (html : String) : Option String :=
  scanGymData html.data

/-- `extractGymId` (src/index.js lines 54-67): match the gym-data script
block, parse its content with `JSON.parse` (the platform parser, passed as
the oracle `parse`), and return the `id` property; return `null` when the
block is missing or parsing throws. -/
def extractGymId (parse : String → Option JSValue) (html : String) : JSValue :=
  match findGymDataBlock html with
  | some content =>
    match parse content with
    | some gymData => getField gymData "id"
    | none => .vNull
  | none => .vNull

/-- Final step of `login` (src/index.js lines 151-159): extract the gym
identifier from the dashboard body, fail with `GymIdNotFound` when it is
falsy (`if (!gymId) throw`), otherwise return the new
`Session(allCookies, gymId)`. -/
def loginFinalize (parse : String → Option JSValue) (allCookies : List String)
    (dashboardBody : String) : Except LoginError Session :=
  let gymId := extractGymId parse dashboardBody
  if truthy gymId then
    .ok ⟨.vArr (allCookies.map JSValue.vStr), gymId⟩
  else
    .error .gymIdNotFound

/-- `Session._formatMemberData` (src/index.js lines 258-270): the
normalized member record; each contact field is
`member.flat_field || member.contact_information?.nested_field`. -/
def formatMemberData (member : JSValue) : JSValue :=
  .vObj
    [ ("id", getField member "id"),
      ("name", getField member "name"),
      ("firstName", jsOr (getField member "first_name")
        (optChain (getField member "contact_information") "first_name")),
      ("lastName", jsOr (getField member "last_name")
        (optChain (getField member "contact_information") "last_name")),
      ("email", jsOr (getField member "email")
        (optChain (getField member "contact_information") "email")),
      ("phone", jsOr (getField member "phone_number")
        (optChain (getField member "contact_information") "phone_number")),
      ("imageUrl", getField member "image_url"),
      ("status", jsOr (getField member "status")
        (optChain (getField member "contact_information") "member_status")),
      ("goodStanding", getField member "good_standing") ]

/-- Row-values selection of `reportById` (src/index.js line 246):
`Array.isArray(row) && row.length > 1 ? row[1] : row.flat()`.  A non-array
row reaches `row.flat()` and raises a `TypeError`, modelled by `none`. -/
def rowValues (row : JSValue) : Option JSValue :=
  match row with
  | .vArr xs =>
    if xs.length > 1 then some (xs.getD 1 .vUndefined)
    else some (.vArr (jsFlat xs))
  | _ => none

/-- Modelled from the spec: the row-values selection rule as claim C4 words
it — "if the row is an array whose second element (index 1) is itself an
array of values, use that second element; otherwise use the flattening of
the row".  Stated only for comparison with `rowValues`, which is the
code's rule. -/
def rowValuesClaimed (row : JSValue) : Option JSValue :=
  match row with
  | .vArr xs =>
    match xs.getD 1 .vUndefined with
    | .vArr vs => some (.vArr vs)
    | _ => some (.vArr (jsFlat xs))
  | _ => none

/-- Cell written for column position `idx`
(src/index.js line 250): `values[index] !== undefined ? values[index] :
null`. -/
def columnValue (values : JSValue) (idx : Nat) : JSValue :=
  if isUndef (jsIndex values idx) then .vNull else jsIndex values idx

/-- The `columnLabels.forEach((label, index) => obj[label] = ...)` loop of
`reportById` (src/index.js lines 249-251), with the running index made
explicit. -/
def assignColumns (values : JSValue) : List JSValue → Nat →
    List (String × JSValue) → List (String × JSValue)
  | [], _, obj => obj
  | label :: rest, idx, obj =>
    assignColumns values rest (idx + 1)
      (objSet obj (jsKey label) (columnValue values idx))

/-- Payload-to-rows transformation of `reportById` (src/index.js lines
236-254): read the column labels from `report_columns_attributes || []`,
read `rows || []`, and map each row to an object assigning each label its
positional value.  `none` models the `TypeError` raised when a
truthy non-array reaches `.map`/`.flat`. -/
def reportRows (data : JSValue) : Option (List JSValue) := do
  let columns ← asArr (jsOr (getField data "report_columns_attributes") (.vArr []))
  let columnLabels := columns.map (fun col => getField col "label")
  let rows ← asArr (jsOr (getField data "rows") (.vArr []))
  mapOption (fun row =>
    (rowValues row).map (fun values => JSValue.vObj (assignColumns values columnLabels 0 []))) rows

/-- Numeric option defaulting with JavaScript truthiness:
`options.x || dflt` (so an explicit `0` also takes the default). -/
def optNat (v : Option Nat) (dflt : Nat) : Nat :=
  match v with
  | some n => if n = 0 then dflt else n
  | none => dflt

/-- `Session.allReports` (src/index.js lines 212-225): request the paginated
reports listing and project each element of `collection` to
`{id, name}`. -/
def allReports (env : HttpEnv) (parse : String → Option JSValue) (s : Session)
    (pageOpt countOpt : Option Nat) : Except ApiError (List JSValue × Session) :=
  let page := optNat pageOpt 1
  let count := optNat countOpt 100
  let url := "https://app.clubworx.com/gyms/" ++ jsKey s.gymId
    ++ "/reports?paginate=1&page=" ++ toString page ++ "&count=" ++ toString count
  match authenticatedRequest env s url [] with
  | .error e => .error e
  | .ok (resp, s1) =>
    match parse resp.body with
    | none => .error .parseFault
    | some data =>
      match asArr (getField data "collection") with
      | none => .error .typeFault
      | some coll =>
        .ok (coll.map (fun report =>
          .vObj [("id", getField report "id"), ("name", getField report "name")]), s1)

/-- `Session.reportById` (src/index.js lines 228-255): request one report's
page and transform the payload with `reportRows`. -/
def reportById (env : HttpEnv) (parse : String → Option JSValue) (s : Session)
    (id : JSValue) (pageOpt countOpt : Option Nat) :
    Except ApiError (List JSValue × Session) :=
  let page := optNat pageOpt 1
  let count := optNat countOpt 100
  let url := "https://app.clubworx.com/gyms/" ++ jsKey s.gymId
    ++ "/reports/" ++ jsKey id ++ "?count=" ++ toString count ++ "&page=" ++ toString page
  match authenticatedRequest env s url [] with
  | .error e => .error e
  | .ok (resp, s1) =>
    match parse resp.body with
    | none => .error .parseFault
    | some data =>
      match reportRows data with
      | none => .error .typeFault
      | some out => .ok (out, s1)

/-- `Session.members` (src/index.js lines 273-288): request the members
listing (appending `&search=` with the URI-encoded term when the term is
truthy; `encodeURIComponent` is the platform encoder `enc`) and normalize
each element of `collection`. -/
def members (env : HttpEnv) (parse : String → Option JSValue) (enc : String → String)
    (s : Session) (pageOpt countOpt : Option Nat) (searchOpt : Option String) :
    Except ApiError (List JSValue × Session) :=
  let page := optNat pageOpt 1
  let count := optNat countOpt 100
  let search := match searchOpt with
    | some str => str
    | none => ""
  let url := "https://app.clubworx.com/gyms/" ++ jsKey s.gymId
    ++ "/members?page=" ++ toString page ++ "&count=" ++ toString count
    ++ (if search ≠ "" then "&search=" ++ enc search else "")
  match authenticatedRequest env s url [] with
  | .error e => .error e
  | .ok (resp, s1) =>
    match parse resp.body with
    | none => .error .parseFault
    | some data =>
      match asArr (getField data "collection") with
      | none => .error .typeFault
      | some coll => .ok (coll.map formatMemberData, s1)

/-- `Session.memberById` (src/index.js lines 291-298): request one contact
and normalize it. -/
def memberById (env : HttpEnv) (parse : String → Option JSValue) (s : Session)
    (id : JSValue) : Except ApiError (JSValue × Session) :=
  let url := "https://app.clubworx.com/gyms/" ++ jsKey s.gymId
    ++ "/contacts/" ++ jsKey id
  match authenticatedRequest env s url [] with
  | .error e => .error e
  | .ok (resp, s1) =>
    match parse resp.body with
    | none => .error .parseFault
    | some data => .ok (formatMemberData data, s1)

/-- `Session.financials` (src/index.js lines 301-305): request the
dashboard financials and return the parsed body unmodified. -/
def financials (env : HttpEnv) (parse : String → Option JSValue) (s : Session) :
    Except ApiError (JSValue × Session) :=
  let url := "https://app.clubworx.com/gyms/" ++ jsKey s.gymId ++ "/dashboard/financials"
  match authenticatedRequest env s url [] with
  | .error e => .error e
  | .ok (resp, s1) =>
    match parse resp.body with
    | none => .error .parseFault
    | some data => .ok (data, s1)

/-- The session state after an operation: the threaded session on success,
the original one when the operation aborted. -/
def finalSession {α : Type} (s : Session) : Except ApiError (α × Session) → Session
  | .ok (_, s2) => s2
  | .error _ => s

/-- Value of the last pair with key `k` in an assignment list (used to
describe repeated JavaScript property assignments, where the last write
wins). -/
def lastAssoc (k : String) : List (String × JSValue) → Option JSValue
  | [] => none
  | p :: rest =>
    match lastAssoc k rest with
    | some w => some w
    | none => if p.1 = k then some p.2 else none

/-- Index of the last label in a column list whose coerced key is `k`. -/
def lastIdxOf (k : String) : List JSValue → Option Nat
  | [] => none
  | label :: rest =>
    match lastIdxOf k rest with
    | some j => some (j + 1)
    | none => if jsKey label = k then some 0 else none

/-- A concrete stand-in for `JSON.parse` that recognises exactly the
gym-data payload whose `id` is the number 0 (used to evaluate the
extraction pipeline at one input). -/
def gymDataParseStub : String → Option JSValue :=
  fun str =>
    if str = "\x7b\"id\": 0\x7d" then some (.vObj [("id", .vNum 0)]) else none

/-- A session whose jar is one cookie string, used to evaluate the claims
at a concrete input. -/
def sampleSession : Session :=
  ⟨.vArr [.vStr "sid=1; Path=/"], .vNum 42⟩

/-- A dashboard page whose gym-data block carries `id` 0. -/
def gymDataHtmlIdZero : String :=
  "<script id=\"gym-data\" type=\"application/json\">\x7b\"id\": 0\x7d</script>"

/-- A dashboard page whose gym-data block carries `id` 7, and a stand-in
parser recognising it. -/
def gymDataHtmlIdSeven : String :=
  "<script id=\"gym-data\" type=\"application/json\">\x7b\"id\": 7\x7d</script>"

/-- Concrete stand-in for `JSON.parse` recognising the id-7 payload. -/
def gymDataParseStubSeven : String → Option JSValue :=
  fun str =>
    if str = "\x7b\"id\": 7\x7d" then some (.vObj [("id", .vNum 7)]) else none

/-- A member record whose flat `first_name` is present but falsy (the empty
string) while the nested `contact_information.first_name` is present and
truthy. -/
def memberBothPresent : JSValue :=
  .vObj [("first_name", .vStr ""),
    ("contact_information", .vObj [("first_name", .vStr "John")])]

/-- A report row whose second element is not an array. -/
def rowSecondNotArray : JSValue :=
  .vArr [.vNum 3, .vNum 7]

/-- A transport oracle that always answers 401. -/
def env401 : HttpEnv :=
  fun _ _ => ⟨401, none, [], "ignored"⟩

/-- A transport oracle that always answers 200 with a fixed body. -/
def env200 : HttpEnv :=
  fun _ _ => ⟨200, none, [], "payload"⟩

/-- The column definitions of a small concrete report payload. -/
def reportPayloadCols : List JSValue :=
  [.vObj [("label", .vStr "A")], .vObj [("label", .vStr "B")]]

/-- The rows of the small concrete report payload: the first row carries
its values at index 1, the second is a short row that gets flattened. -/
def reportPayloadRows : List JSValue :=
  [.vArr [.vArr [.vNull], .vArr [.vNum 1]], .vArr [.vArr [.vNum 5]]]

/-- A small concrete report payload. -/
def reportPayload : JSValue :=
  .vObj [("report_columns_attributes", .vArr reportPayloadCols),
    ("rows", .vArr reportPayloadRows)]

/-! Helper lemmas about object assignment and lookup. -/

theorem lookup_map_replace_of_any (k : String) (v : JSValue) :
    ∀ fs : List (String × JSValue), fs.any (fun p => p.1 == k) = true →
      List.lookup k (fs.map (fun p => if p.1 = k then (k, v) else p)) = some v := by
  intro fs
  induction fs with
  | nil => intro h; simp at h
  | cons p fs ih =>
    intro h
    by_cases hp : p.1 = k
    · rw [List.map_cons, if_pos hp]
      simp [List.lookup]
    · rw [List.map_cons, if_neg hp]
      have hk : (k == p.1) = false := by
        simp only [beq_eq_false_iff_ne, ne_eq]
        exact fun hq => hp hq.symm
      simp only [List.lookup, hk]
      apply ih
      rcases List.any_eq_true.mp h with ⟨q, hq, hq2⟩
      rcases List.mem_cons.mp hq with hq1 | hq1
      · exact absurd (beq_iff_eq.mp (hq1 ▸ hq2)) hp
      · exact List.any_eq_true.mpr ⟨q, hq1, hq2⟩

theorem lookup_append_single_of_not_any (k : String) (v : JSValue) :
    ∀ fs : List (String × JSValue), fs.any (fun p => p.1 == k) = false →
      List.lookup k (fs ++ [(k, v)]) = some v := by
  intro fs
  induction fs with
  | nil => simp [List.lookup]
  | cons p fs ih =>
    intro h
    rw [List.any_cons, Bool.or_eq_false_iff] at h
    have hk : (k == p.1) = false := by
      simp only [beq_eq_false_iff_ne, ne_eq]
      intro hq
      rw [beq_eq_false_iff_ne] at h
      exact h.1 hq.symm
    rw [List.cons_append]
    simp only [List.lookup, hk]
    exact ih h.2

/-- Looking up the key just assigned yields the assigned value. -/
theorem lookup_objSet_self (fs : List (String × JSValue)) (k : String) (v : JSValue) :
    List.lookup k (objSet fs k v) = some v := by
  unfold objSet
  by_cases h : fs.any (fun p => p.1 == k) = true
  · rw [if_pos h]
    exact lookup_map_replace_of_any k v fs h
  · have h' : fs.any (fun p => p.1 == k) = false := by
      cases hb : fs.any (fun p => p.1 == k) with
      | true => exact absurd hb h
      | false => rfl
    rw [if_neg h]
    exact lookup_append_single_of_not_any k v fs h' 

theorem lookup_map_replace_ne (k k' : String) (v : JSValue) (hne : k' ≠ k) :
    ∀ fs : List (String × JSValue),
      List.lookup k' (fs.map (fun p => if p.1 = k then (k, v) else p)) =
        List.lookup k' fs := by
  intro fs
  induction fs with
  | nil => simp
  | cons p fs ih =>
    by_cases hp : p.1 = k
    · have h2 : (k' == k) = false := by simp [hne]
      have h3 : (k' == p.1) = false := by simp [hp, hne]
      rw [List.map_cons, if_pos hp]
      simp only [List.lookup, h2, h3]
      exact ih
    · rw [List.map_cons, if_neg hp]
      simp only [List.lookup]
      cases hk : (k' == p.1) with
      | true => rfl
      | false => exact ih

theorem lookup_append_single_ne (k k' : String) (v : JSValue) (hne : k' ≠ k) :
    ∀ fs : List (String × JSValue),
      List.lookup k' (fs ++ [(k, v)]) = List.lookup k' fs := by
  intro fs
  induction fs with
  | nil =>
    have hk : (k' == k) = false := by simp [hne]
    simp [List.lookup, hk]
  | cons p fs ih =>
    rw [List.cons_append]
    simp only [List.lookup]
    cases hk : (k' == p.1) with
    | true => rfl
    | false => exact ih

/-- Assigning one key does not change the lookup of another. -/
theorem lookup_objSet_ne (fs : List (String × JSValue)) (k k' : String) (v : JSValue)
    (hne : k' ≠ k) : List.lookup k' (objSet fs k v) = List.lookup k' fs := by
  unfold objSet
  by_cases h : fs.any (fun p => p.1 == k) = true
  · rw [if_pos h]
    exact lookup_map_replace_ne k k' v hne fs
  · rw [if_neg h]
    exact lookup_append_single_ne k k' v hne fs

/-- A sequence of assignments evaluates, at each key, to the last value
assigned for that key (or to the initial object's value when the key is
never assigned). -/
theorem lookup_foldl_objSet (k : String) :
    ∀ (ps : List (String × JSValue)) (init : List (String × JSValue)),
      List.lookup k (ps.foldl (fun acc p => objSet acc p.1 p.2) init) =
        match lastAssoc k ps with
        | some v => some v
        | none => List.lookup k init := by
  intro ps
  induction ps with
  | nil => intro init; simp [lastAssoc]
  | cons p ps ih =>
    intro init
    rw [List.foldl_cons, ih]
    cases hl : lastAssoc k ps with
    | some w => simp [lastAssoc, hl]
    | none =>
      by_cases hp : p.1 = k
      · subst hp
        simp [lastAssoc, hl, lookup_objSet_self]
      · have hne : k ≠ p.1 := fun hq => hp hq.symm
        simp [lastAssoc, hl, lookup_objSet_ne _ _ _ _ hne, hp]

/-- A key that never occurs in an assignment list has no last
assignment. -/
theorem lastAssoc_none_of_not_key (k : String) :
    ∀ ps : List (String × JSValue), k ∉ ps.map Prod.fst → lastAssoc k ps = none := by
  intro ps
  induction ps with
  | nil => intro _; rfl
  | cons p ps ih =>
    intro h
    rw [List.map_cons, List.mem_cons] at h
    push_neg at h
    rw [lastAssoc, ih h.2]
    simp only [if_neg (fun hq : p.1 = k => h.1 hq.symm)]

/-- With pairwise-distinct keys, the last assignment of a present key is
its unique value. -/
theorem lastAssoc_of_nodup (k : String) (v : JSValue) :
    ∀ ps : List (String × JSValue), (ps.map Prod.fst).Nodup → (k, v) ∈ ps →
      lastAssoc k ps = some v := by
  intro ps
  induction ps with
  | nil => intro _ h; simp at h
  | cons p ps ih =>
    intro hnd hmem
    rw [List.map_cons, List.nodup_cons] at hnd
    rcases List.mem_cons.mp hmem with hq | hq
    · have hk : p.1 = k := by rw [← hq]
      have : lastAssoc k ps = none := by
        apply lastAssoc_none_of_not_key
        rw [← hk]
        exact hnd.1
      rw [lastAssoc, this]
      rw [if_pos hk, ← hq]
    · rw [lastAssoc, ih hnd.2 hq]

/-- The `forEach` assignment loop evaluates, at each key, to the cell of the
last column position carrying that key (or to the initial object's value
when no column does). -/
theorem lookup_assignColumns (values : JSValue) (k : String) :
    ∀ (labels : List JSValue) (idx : Nat) (obj : List (String × JSValue)),
      List.lookup k (assignColumns values labels idx obj) =
        match lastIdxOf k labels with
        | some j => some (columnValue values (idx + j))
        | none => List.lookup k obj := by
  intro labels
  induction labels with
  | nil => intro idx obj; simp [assignColumns, lastIdxOf]
  | cons label rest ih =>
    intro idx obj
    rw [assignColumns, ih]
    cases hl : lastIdxOf k rest with
    | some j =>
      have harith : idx + 1 + j = idx + (j + 1) := by omega
      simp [lastIdxOf, hl, harith]
    | none =>
      by_cases hk : jsKey label = k
      · subst hk
        simp [lastIdxOf, hl, lookup_objSet_self]
      · have hne : k ≠ jsKey label := fun hq => hk hq.symm
        simp [lastIdxOf, hl, lookup_objSet_ne _ _ _ _ hne, hk]

/-- A key has a last column position exactly when some column label coerces
to it. -/
theorem lastIdxOf_isSome_iff (k : String) :
    ∀ labels : List JSValue,
      (lastIdxOf k labels).isSome = true ↔ k ∈ labels.map jsKey := by
  intro labels
  induction labels with
  | nil => simp [lastIdxOf]
  | cons label rest ih =>
    rw [List.map_cons, List.mem_cons]
    cases hl : lastIdxOf k rest with
    | some j =>
      have : k ∈ rest.map jsKey := ih.mp (by simp [hl])
      simp [lastIdxOf, hl, this]
    | none =>
      have hmem : ¬ k ∈ rest.map jsKey := fun hm => by
        have hs := ih.mpr hm
        rw [hl] at hs
        simp at hs
      by_cases hk : jsKey label = k
      · simp [lastIdxOf, hl, hk]
      · have hk2 : ¬ k = jsKey label := fun hq => hk hq.symm
        simp [lastIdxOf, hl, hk, hk2, hmem]

/-- The last column position of the key at position `i` is at least `i`. -/
theorem lastIdxOf_ge (k : String) :
    ∀ (labels : List JSValue) (i : Nat) (d : JSValue), i < labels.length →
      jsKey (labels.getD i d) = k →
      ∃ j, lastIdxOf k labels = some j ∧ i ≤ j := by
  intro labels
  induction labels with
  | nil => intro i d h; simp at h
  | cons label rest ih =>
    intro i d hi hk
    cases i with
    | zero =>
      rw [List.getD_cons_zero] at hk
      cases hl : lastIdxOf k rest with
      | some j => exact ⟨j + 1, by simp [lastIdxOf, hl], by omega⟩
      | none => exact ⟨0, by simp [lastIdxOf, hl, hk], by omega⟩
    | succ i =>
      rw [List.getD_cons_succ] at hk
      have hi' : i < rest.length := by
        rw [List.length_cons] at hi
        omega
      rcases ih i d hi' hk with ⟨j, hj, hij⟩
      exact ⟨j + 1, by simp [lastIdxOf, hj], by omega⟩

/-- Specification of `mapOption` when every element maps successfully. -/
theorem mapOption_spec {α β : Type} (f : α → Option β) :
    ∀ l : List α, (∀ x ∈ l, (f x).isSome = true) →
      ∃ out : List β, mapOption f l = some out ∧ out.length = l.length ∧
        (∀ o ∈ out, ∃ x ∈ l, f x = some o) ∧
        (∀ (j : Nat) (d : α) (d' : β), j < l.length →
          f (l.getD j d) = some (out.getD j d')) := by
  intro l
  induction l with
  | nil =>
    intro _
    exact ⟨[], rfl, rfl, by simp, by intro j d d' h; simp at h⟩
  | cons x xs ih =>
    intro h
    have hx : (f x).isSome = true := h x (List.mem_cons_self x xs)
    rcases Option.isSome_iff_exists.mp hx with ⟨y, hy⟩
    rcases ih (fun z hz => h z (List.mem_cons_of_mem x hz)) with ⟨out, h1, h2, h3, h4⟩
    refine ⟨y :: out, ?_, ?_, ?_, ?_⟩
    · simp [mapOption, hy, h1]
    · simp [h2]
    · intro o ho
      rcases List.mem_cons.mp ho with ho | ho
      · exact ⟨x, List.mem_cons_self x xs, ho ▸ hy⟩
      · rcases h3 o ho with ⟨z, hz, hz2⟩
        exact ⟨z, List.mem_cons_of_mem x hz, hz2⟩
    · intro j d d' hj
      cases j with
      | zero => simpa using hy
      | succ j =>
        rw [List.getD_cons_succ, List.getD_cons_succ]
        exact h4 j d d' (by rw [List.length_cons] at hj; omega)

/-! Step lemmas for the redirect loop. -/

/-- With the budget exhausted the loop fails, whatever the current URL. -/
theorem redirectLoop_zero (env : RedirectEnv) (c : Nat) (url : Option String)
    (cookies : List String) :
    redirectLoop env 0 c url cookies = .error .tooManyRedirects := rfl

/-- A hop answered by a non-redirect status stops the loop successfully,
with that response and the jar extended by its cookies. -/
theorem redirectLoop_stop (env : RedirectEnv) (b c : Nat) (u : String)
    (cookies : List String)
    (h2 : (env c (resolveLocation u) (joinCookies cookies)).statusCode ≠ 302)
    (h1 : (env c (resolveLocation u) (joinCookies cookies)).statusCode ≠ 301) :
    redirectLoop env (b + 1) c (some u) cookies =
      .ok (env c (resolveLocation u) (joinCookies cookies),
        cookies ++ (env c (resolveLocation u) (joinCookies cookies)).setCookie) := by
  simp only [redirectLoop]
  rw [if_pos ⟨h2, h1⟩]

/-- A hop answered by 301 or 302 continues the loop at the response's
`Location`, with the jar extended by its cookies. -/
theorem redirectLoop_redirect (env : RedirectEnv) (b c : Nat) (u : String)
    (cookies : List String)
    (h : (env c (resolveLocation u) (joinCookies cookies)).statusCode = 301 ∨
      (env c (resolveLocation u) (joinCookies cookies)).statusCode = 302) :
    redirectLoop env (b + 1) c (some u) cookies =
      redirectLoop env b (c + 1) (env c (resolveLocation u) (joinCookies cookies)).location
        (cookies ++ (env c (resolveLocation u) (joinCookies cookies)).setCookie) := by
  simp only [redirectLoop]
  rw [if_neg]
  rintro ⟨a2, a1⟩
  rcases h with h | h
  · exact a1 h
  · exact a2 h

/-! Claim theorems. -/

/-- C1.  For every response received by `Session.authenticatedRequest`: a
401 status, or a 302 status whose `Location` contains `/users/sign_in`,
raises `SessionExpired` (before any body parsing — `authenticatedRequest`
never parses the body); every other response is returned to the caller
unchanged. -/
theorem authenticatedRequest_expiry_behavior
    (env : HttpEnv) (s : Session) (url : String)
    (callerHeaders : List (String × JSValue)) (ch : JSValue) (resp : Response)
    (hch : sessionCookieHeader s = some ch)
    (hresp : env url (buildHeaders callerHeaders ch) = resp) :
    (resp.statusCode = 401 →
      authenticatedRequest env s url callerHeaders = .error .sessionExpired) ∧
    (resp.statusCode = 302 → locationHasSignIn resp = true →
      authenticatedRequest env s url callerHeaders = .error .sessionExpired) ∧
    (resp.statusCode ≠ 401 →
      ¬(resp.statusCode = 302 ∧ locationHasSignIn resp = true) →
      authenticatedRequest env s url callerHeaders = .ok (resp, s)) := by
  unfold authenticatedRequest
  rw [hch]
  simp only [hresp]
  refine ⟨?_, ?_, ?_⟩
  · intro h4
    rw [if_pos h4]
  · intro h3 hl
    by_cases h4 : resp.statusCode = 401
    · rw [if_pos h4]
    · rw [if_neg h4, if_pos ⟨h3, hl⟩]
  · intro h4 hns
    rw [if_neg h4, if_neg ?_]
    intro hc
    exact hns ⟨hc.1, hc.2⟩

/-- Witness for C1: a concrete 401 response raises `SessionExpired`, and a
concrete 200 response passes through unchanged. -/
theorem authenticatedRequest_expiry_behavior_witness :
    authenticatedRequest env401 sampleSession
        "https://app.clubworx.com/x" [] = .error .sessionExpired ∧
    authenticatedRequest env200 sampleSession
        "https://app.clubworx.com/x" [] =
      .ok (⟨200, none, [], "payload"⟩, sampleSession) :=
  ⟨(authenticatedRequest_expiry_behavior env401
      sampleSession "https://app.clubworx.com/x" [] (.vStr "sid=1") ⟨401, none, [], "ignored"⟩
      (by rfl) rfl).1 rfl,
   (authenticatedRequest_expiry_behavior env200
      sampleSession "https://app.clubworx.com/x" [] (.vStr "sid=1") ⟨200, none, [], "payload"⟩
      (by rfl) rfl).2.2 (by decide) (by decide)⟩

/-- C2.  In login's redirect-following phase: a chain of exactly five
301/302 responses exhausts the budget and fails with `TooManyRedirects`; a
chain of four redirects followed by a non-redirect response terminates
successfully on that response, with the `Set-Cookie` headers of every hop
appended in order to the jar. -/
theorem login_redirect_budget :
    (∀ (r0 r1 r2 r3 r4 : Response) (u : String) (init : List String),
      (∀ r ∈ [r0, r1, r2, r3, r4],
        (r.statusCode = 301 ∨ r.statusCode = 302) ∧ r.location.isSome = true) →
      loginRedirectPhase (chainEnv [r0, r1, r2, r3, r4]) (some u) init =
        .error .tooManyRedirects) ∧
    (∀ (r0 r1 r2 r3 r4 : Response) (u : String) (init : List String),
      (∀ r ∈ [r0, r1, r2, r3],
        (r.statusCode = 301 ∨ r.statusCode = 302) ∧ r.location.isSome = true) →
      r4.statusCode ≠ 301 → r4.statusCode ≠ 302 →
      loginRedirectPhase (chainEnv [r0, r1, r2, r3, r4]) (some u) init =
        .ok (r4, init ++ r0.setCookie ++ r1.setCookie ++ r2.setCookie
          ++ r3.setCookie ++ r4.setCookie)) := by
  constructor
  · intro r0 r1 r2 r3 r4 u init H
    obtain ⟨l0, hl0⟩ := Option.isSome_iff_exists.mp (H r0 (by simp)).2
    obtain ⟨l1, hl1⟩ := Option.isSome_iff_exists.mp (H r1 (by simp)).2
    obtain ⟨l2, hl2⟩ := Option.isSome_iff_exists.mp (H r2 (by simp)).2
    obtain ⟨l3, hl3⟩ := Option.isSome_iff_exists.mp (H r3 (by simp)).2
    show redirectLoop (chainEnv [r0, r1, r2, r3, r4]) 5 0 (some u) init =
      .error .tooManyRedirects
    rw [redirectLoop_redirect _ 4 0 u init (H r0 (by simp)).1]
    show redirectLoop _ 4 1 r0.location (init ++ r0.setCookie) = _
    rw [hl0, redirectLoop_redirect _ 3 1 l0 _ (H r1 (by simp)).1]
    show redirectLoop _ 3 2 r1.location (init ++ r0.setCookie ++ r1.setCookie) = _
    rw [hl1, redirectLoop_redirect _ 2 2 l1 _ (H r2 (by simp)).1]
    show redirectLoop _ 2 3 r2.location
      (init ++ r0.setCookie ++ r1.setCookie ++ r2.setCookie) = _
    rw [hl2, redirectLoop_redirect _ 1 3 l2 _ (H r3 (by simp)).1]
    show redirectLoop _ 1 4 r3.location
      (init ++ r0.setCookie ++ r1.setCookie ++ r2.setCookie ++ r3.setCookie) = _
    rw [hl3, redirectLoop_redirect _ 0 4 l3 _ (H r4 (by simp)).1]
    exact redirectLoop_zero _ 5 _ _
  · intro r0 r1 r2 r3 r4 u init H h301 h302
    obtain ⟨l0, hl0⟩ := Option.isSome_iff_exists.mp (H r0 (by simp)).2
    obtain ⟨l1, hl1⟩ := Option.isSome_iff_exists.mp (H r1 (by simp)).2
    obtain ⟨l2, hl2⟩ := Option.isSome_iff_exists.mp (H r2 (by simp)).2
    obtain ⟨l3, hl3⟩ := Option.isSome_iff_exists.mp (H r3 (by simp)).2
    show redirectLoop (chainEnv [r0, r1, r2, r3, r4]) 5 0 (some u) init = _
    rw [redirectLoop_redirect _ 4 0 u init (H r0 (by simp)).1]
    show redirectLoop _ 4 1 r0.location (init ++ r0.setCookie) = _
    rw [hl0, redirectLoop_redirect _ 3 1 l0 _ (H r1 (by simp)).1]
    show redirectLoop _ 3 2 r1.location (init ++ r0.setCookie ++ r1.setCookie) = _
    rw [hl1, redirectLoop_redirect _ 2 2 l1 _ (H r2 (by simp)).1]
    show redirectLoop _ 2 3 r2.location
      (init ++ r0.setCookie ++ r1.setCookie ++ r2.setCookie) = _
    rw [hl2, redirectLoop_redirect _ 1 3 l2 _ (H r3 (by simp)).1]
    show redirectLoop _ 1 4 r3.location
      (init ++ r0.setCookie ++ r1.setCookie ++ r2.setCookie ++ r3.setCookie) = _
    rw [hl3, redirectLoop_stop _ 0 4 l3 _ h302 h301]
    rfl

/-- Witness for C2: a concrete five-redirect chain fails with
`TooManyRedirects`, and a concrete four-redirect chain ending in 200
succeeds with all hop cookies collected. -/
theorem login_redirect_budget_witness :
    loginRedirectPhase
        (chainEnv (List.replicate 5 ⟨302, some "/next", ["h=1"], ""⟩))
        (some "/dashboard") ["s=0"] = .error .tooManyRedirects ∧
    loginRedirectPhase
        (chainEnv [⟨301, some "/a", ["c0=0"], ""⟩, ⟨302, some "/b", ["c1=1"], ""⟩,
          ⟨301, some "/c", [], ""⟩, ⟨302, some "https://app.clubworx.com/d", ["c3=3"], ""⟩,
          ⟨200, none, ["c4=4"], "<html>"⟩])
        (some "/dashboard") ["s=0"] =
      .ok (⟨200, none, ["c4=4"], "<html>"⟩,
        ["s=0", "c0=0", "c1=1", "c3=3", "c4=4"]) :=
  ⟨login_redirect_budget.1 ⟨302, some "/next", ["h=1"], ""⟩ ⟨302, some "/next", ["h=1"], ""⟩
      ⟨302, some "/next", ["h=1"], ""⟩ ⟨302, some "/next", ["h=1"], ""⟩
      ⟨302, some "/next", ["h=1"], ""⟩ "/dashboard" ["s=0"] (by decide),
   login_redirect_budget.2 ⟨301, some "/a", ["c0=0"], ""⟩ ⟨302, some "/b", ["c1=1"], ""⟩
      ⟨301, some "/c", [], ""⟩ ⟨302, some "https://app.clubworx.com/d", ["c3=3"], ""⟩
      ⟨200, none, ["c4=4"], "<html>"⟩ "/dashboard" ["s=0"] (by decide)
      (by decide) (by decide)⟩

/-- Counterexample to C6 as stated: the claim quantifies over every
Session, but a session whose fields are present yet falsy — here cookies
`""` and gymId `0`, both constructible with `new Session` — serializes to
an object that `fromJSON` rejects with `InvalidSessionData` instead of
reproducing the session. -/
theorem session_roundtrip_counterexample :
    Session.fromJSON (Session.toJSON ⟨.vStr "", .vNum 0⟩) =
      .error .invalidSessionData := rfl

/-- C6 (amended).  For every Session whose cookies and gymId are truthy,
`fromJSON (toJSON s)` reproduces a session with the same cookies and gymId;
and every input object missing the `cookies` or the `gymId` key is rejected
with `InvalidSessionData`. -/
theorem session_roundtrip_amended :
    (∀ s : Session, truthy s.cookies = true → truthy s.gymId = true →
      Session.fromJSON (Session.toJSON s) = .ok s) ∧
    (∀ fs : List (String × JSValue),
      List.lookup "cookies" fs = none ∨ List.lookup "gymId" fs = none →
      Session.fromJSON (.vObj fs) = .error .invalidSessionData) := by
  constructor
  · intro s hc hg
    have h1 : getField (Session.toJSON s) "cookies" = s.cookies := rfl
    have h2 : getField (Session.toJSON s) "gymId" = s.gymId := rfl
    unfold Session.fromJSON
    rw [h1, h2, hc, hg]
    rfl
  · intro fs h
    have h' : getField (.vObj fs) "cookies" = .vUndefined ∨
        getField (.vObj fs) "gymId" = .vUndefined := by
      rcases h with h | h
      · left; simp only [getField]; rw [h]
      · right; simp only [getField]; rw [h]
    unfold Session.fromJSON
    rcases h' with h' | h'
    · rw [h']
      simp [truthy]
    · rw [h']
      simp [truthy]

/-- Witness for the amended C6: a concrete truthy session round-trips, and
an object without a `cookies` key is rejected. -/
theorem session_roundtrip_amended_witness :
    Session.fromJSON (Session.toJSON ⟨.vStr "a=1", .vNum 9⟩) =
      .ok ⟨.vStr "a=1", .vNum 9⟩ ∧
    Session.fromJSON (.vObj [("gymId", .vNum 9)]) = .error .invalidSessionData :=
  ⟨session_roundtrip_amended.1 ⟨.vStr "a=1", .vNum 9⟩ rfl rfl,
   session_roundtrip_amended.2 [("gymId", .vNum 9)] (Or.inl rfl)⟩

/-- C10.  `fromJSON` rejects every input whose `cookies` or `gymId` key is
present but falsy (so a gym identifier of 0, or cookies `""`, can never be
restored), while an empty cookies array — truthy in JavaScript — is
accepted. -/
theorem fromJSON_falsy_fields :
    (∀ (fs : List (String × JSValue)) (c : JSValue),
      List.lookup "cookies" fs = some c → truthy c = false →
      Session.fromJSON (.vObj fs) = .error .invalidSessionData) ∧
    (∀ (fs : List (String × JSValue)) (g : JSValue),
      List.lookup "gymId" fs = some g → truthy g = false →
      Session.fromJSON (.vObj fs) = .error .invalidSessionData) ∧
    (∀ g : JSValue, truthy g = true →
      Session.fromJSON (.vObj [("cookies", .vArr []), ("gymId", g)]) =
        .ok ⟨.vArr [], g⟩) := by
  refine ⟨?_, ?_, ?_⟩
  · intro fs c hc htr
    have h1 : getField (.vObj fs) "cookies" = c := by simp only [getField]; rw [hc]
    unfold Session.fromJSON
    rw [h1, htr]
    simp [truthy]
  · intro fs g hg htr
    have h1 : getField (.vObj fs) "gymId" = g := by simp only [getField]; rw [hg]
    unfold Session.fromJSON
    rw [h1, htr]
    simp [truthy]
  · intro g hg
    have h1 : getField (.vObj [("cookies", .vArr []), ("gymId", g)]) "cookies" =
        .vArr [] := rfl
    have h2 : getField (.vObj [("cookies", .vArr []), ("gymId", g)]) "gymId" = g := rfl
    unfold Session.fromJSON
    rw [h1, h2, hg]
    rfl

/-- Witness for C10: gymId 0 and empty-string cookies are rejected at
concrete inputs; an empty cookies array is accepted. -/
theorem fromJSON_falsy_fields_witness :
    Session.fromJSON (.vObj [("cookies", .vStr "a=1"), ("gymId", .vNum 0)]) =
      .error .invalidSessionData ∧
    Session.fromJSON (.vObj [("cookies", .vStr ""), ("gymId", .vNum 3)]) =
      .error .invalidSessionData ∧
    Session.fromJSON (.vObj [("cookies", .vArr []), ("gymId", .vNum 3)]) =
      .ok ⟨.vArr [], .vNum 3⟩ :=
  ⟨fromJSON_falsy_fields.2.1 [("cookies", .vStr "a=1"), ("gymId", .vNum 0)]
      (.vNum 0) rfl rfl,
   fromJSON_falsy_fields.1 [("cookies", .vStr ""), ("gymId", .vNum 3)]
      (.vStr "") rfl rfl,
   fromJSON_falsy_fields.2.2 (.vNum 3) rfl⟩

/-- Counterexample to C5 as stated: on a member whose flat `first_name` and
nested `contact_information.first_name` are both present, the
normalization yields the nested value, not the flat one — `||` prefers the
flat field only when it is truthy, and the empty string is falsy. -/
theorem member_flat_preference_counterexample :
    getField memberBothPresent "first_name" = .vStr "" ∧
    optChain (getField memberBothPresent "contact_information") "first_name" =
      .vStr "John" ∧
    objLookup (formatMemberData memberBothPresent) "firstName" =
      some (.vStr "John") ∧
    objLookup (formatMemberData memberBothPresent) "firstName" ≠
      some (.vStr "") := by
  refine ⟨rfl, rfl, rfl, ?_⟩
  intro h
  have e : objLookup (formatMemberData memberBothPresent) "firstName" =
      some (JSValue.vStr "John") := rfl
  rw [e] at h
  injection h with h1
  injection h1 with h2
  exact absurd h2 (by decide)

/-- C5 (amended).  The normalization used by `members`/`memberById` prefers
each flat field when the flat field is truthy; when the flat field is
absent or falsy it falls back to the nested `contact_information` field
(`member_status` for `status`); when neither is present the result is
`undefined`. -/
theorem member_normalization_truthy_preference (member : JSValue) :
    (truthy (getField member "first_name") = true →
      objLookup (formatMemberData member) "firstName" =
        some (getField member "first_name")) ∧
    (truthy (getField member "first_name") = false →
      objLookup (formatMemberData member) "firstName" =
        some (optChain (getField member "contact_information") "first_name")) ∧
    (truthy (getField member "last_name") = true →
      objLookup (formatMemberData member) "lastName" =
        some (getField member "last_name")) ∧
    (truthy (getField member "last_name") = false →
      objLookup (formatMemberData member) "lastName" =
        some (optChain (getField member "contact_information") "last_name")) ∧
    (truthy (getField member "email") = true →
      objLookup (formatMemberData member) "email" =
        some (getField member "email")) ∧
    (truthy (getField member "email") = false →
      objLookup (formatMemberData member) "email" =
        some (optChain (getField member "contact_information") "email")) ∧
    (truthy (getField member "phone_number") = true →
      objLookup (formatMemberData member) "phone" =
        some (getField member "phone_number")) ∧
    (truthy (getField member "phone_number") = false →
      objLookup (formatMemberData member) "phone" =
        some (optChain (getField member "contact_information") "phone_number")) ∧
    (truthy (getField member "status") = true →
      objLookup (formatMemberData member) "status" =
        some (getField member "status")) ∧
    (truthy (getField member "status") = false →
      objLookup (formatMemberData member) "status" =
        some (optChain (getField member "contact_information") "member_status")) ∧
    (getField member "first_name" = .vUndefined →
      optChain (getField member "contact_information") "first_name" = .vUndefined →
      objLookup (formatMemberData member) "firstName" = some .vUndefined) := by
  have e1 : objLookup (formatMemberData member) "firstName" =
      some (jsOr (getField member "first_name")
        (optChain (getField member "contact_information") "first_name")) := rfl
  have e2 : objLookup (formatMemberData member) "lastName" =
      some (jsOr (getField member "last_name")
        (optChain (getField member "contact_information") "last_name")) := rfl
  have e3 : objLookup (formatMemberData member) "email" =
      some (jsOr (getField member "email")
        (optChain (getField member "contact_information") "email")) := rfl
  have e4 : objLookup (formatMemberData member) "phone" =
      some (jsOr (getField member "phone_number")
        (optChain (getField member "contact_information") "phone_number")) := rfl
  have e5 : objLookup (formatMemberData member) "status" =
      some (jsOr (getField member "status")
        (optChain (getField member "contact_information") "member_status")) := rfl
  refine ⟨?_, ?_, ?_, ?_, ?_, ?_, ?_, ?_, ?_, ?_, ?_⟩
  · intro h; rw [e1]; simp [jsOr, h]
  · intro h; rw [e1]; simp [jsOr, h]
  · intro h; rw [e2]; simp [jsOr, h]
  · intro h; rw [e2]; simp [jsOr, h]
  · intro h; rw [e3]; simp [jsOr, h]
  · intro h; rw [e3]; simp [jsOr, h]
  · intro h; rw [e4]; simp [jsOr, h]
  · intro h; rw [e4]; simp [jsOr, h]
  · intro h; rw [e5]; simp [jsOr, h]
  · intro h; rw [e5]; simp [jsOr, h]
  · intro h1 h2; rw [e1, h1, h2]; rfl

/-- Witness for the amended C5: a truthy flat field wins at a concrete
member, and a falsy flat field falls back to the nested value. -/
theorem member_normalization_truthy_preference_witness :
    objLookup (formatMemberData (.vObj [("first_name", .vStr "Jane"),
        ("contact_information", .vObj [("first_name", .vStr "Nested")])]))
      "firstName" = some (.vStr "Jane") ∧
    objLookup (formatMemberData memberBothPresent) "firstName" =
      some (.vStr "John") :=
  ⟨(member_normalization_truthy_preference (.vObj [("first_name", .vStr "Jane"),
      ("contact_information", .vObj [("first_name", .vStr "Nested")])])).1 rfl,
   (member_normalization_truthy_preference memberBothPresent).2.1 rfl⟩

/-- C7 (amended).  When the gym-data block matches and its content parses,
extraction returns the parsed object's `id` property, and login's final
step returns a Session carrying it exactly when it is truthy; a missing
block, a parse failure, an absent `id`, or a falsy `id` all make the final
step fail with `GymIdNotFound`. -/
theorem extractGymId_pipeline
    (parse : String → Option JSValue) (html content : String) (v gid : JSValue)
    (cookies : List String) :
    (findGymDataBlock html = some content → parse content = some v →
      getField v "id" = gid →
      extractGymId parse html = gid ∧
      (truthy gid = true →
        loginFinalize parse cookies html = .ok ⟨.vArr (cookies.map JSValue.vStr), gid⟩) ∧
      (truthy gid = false → loginFinalize parse cookies html = .error .gymIdNotFound)) ∧
    (findGymDataBlock html = none →
      extractGymId parse html = .vNull ∧
      loginFinalize parse cookies html = .error .gymIdNotFound) ∧
    (findGymDataBlock html = some content → parse content = none →
      extractGymId parse html = .vNull ∧
      loginFinalize parse cookies html = .error .gymIdNotFound) := by
  refine ⟨?_, ?_, ?_⟩
  · intro hb hp hid
    have he : extractGymId parse html = gid := by
      unfold extractGymId
      rw [hb]
      show (match parse content with
        | some gymData => getField gymData "id"
        | none => JSValue.vNull) = gid
      rw [hp]
      exact hid
    refine ⟨he, ?_, ?_⟩
    · intro ht
      unfold loginFinalize
      rw [he, if_pos ht]
    · intro hf
      unfold loginFinalize
      rw [he, if_neg (by simp [hf])]
  · intro hb
    have he : extractGymId parse html = .vNull := by
      unfold extractGymId
      rw [hb]
    exact ⟨he, by unfold loginFinalize; rw [he]; rfl⟩
  · intro hb hp
    have he : extractGymId parse html = .vNull := by
      unfold extractGymId
      rw [hb]
      show (match parse content with
        | some gymData => getField gymData "id"
        | none => JSValue.vNull) = JSValue.vNull
      rw [hp]
    exact ⟨he, by unfold loginFinalize; rw [he]; rfl⟩

/-- Counterexample to C7 as stated: a page whose gym-data block parses and
has an `id` field — with value 0 — still makes login fail with
`GymIdNotFound`, although none of the claim's three failure conditions
(missing block, unparseable content, absent `id`) holds, because `login`
tests the extracted identifier for truthiness. -/
theorem extractGymId_counterexample :
    findGymDataBlock gymDataHtmlIdZero = some "\x7b\"id\": 0\x7d" ∧
    gymDataParseStub "\x7b\"id\": 0\x7d" = some (.vObj [("id", .vNum 0)]) ∧
    getField (.vObj [("id", .vNum 0)]) "id" = .vNum 0 ∧
    extractGymId gymDataParseStub gymDataHtmlIdZero = .vNum 0 ∧
    loginFinalize gymDataParseStub [] gymDataHtmlIdZero = .error .gymIdNotFound :=
  ⟨rfl, rfl, rfl, rfl, rfl⟩

/-- Witness for the amended C7: at a concrete page the id is extracted and
a Session carrying it is returned; at a page without the block the final
step fails with `GymIdNotFound`. -/
theorem extractGymId_pipeline_witness :
    extractGymId gymDataParseStubSeven gymDataHtmlIdSeven = .vNum 7 ∧
    loginFinalize gymDataParseStubSeven ["a=1"] gymDataHtmlIdSeven =
      .ok ⟨.vArr [.vStr "a=1"], .vNum 7⟩ ∧
    loginFinalize gymDataParseStubSeven [] "<html>no data</html>" =
      .error .gymIdNotFound :=
  ⟨((extractGymId_pipeline gymDataParseStubSeven gymDataHtmlIdSeven
      "\x7b\"id\": 7\x7d" (.vObj [("id", .vNum 7)]) (.vNum 7) ["a=1"]).1
      (by rfl) rfl rfl).1,
   ((extractGymId_pipeline gymDataParseStubSeven gymDataHtmlIdSeven
      "\x7b\"id\": 7\x7d" (.vObj [("id", .vNum 7)]) (.vNum 7) ["a=1"]).1
      (by rfl) rfl rfl).2.1 rfl,
   ((extractGymId_pipeline gymDataParseStubSeven "<html>no data</html>"
      "" .vNull .vNull []).2.1 (by rfl)).2⟩

/-- Counterexample to C4 as stated: on a two-element row whose second
element is not an array, the code still uses that second element as the
values (it only checks `row.length > 1`), whereas the claim's rule would
flatten the row. -/
theorem reportById_rowValues_counterexample :
    rowValues rowSecondNotArray = some (.vNum 7) ∧
    rowValuesClaimed rowSecondNotArray = some (.vArr [.vNum 3, .vNum 7]) ∧
    rowValues rowSecondNotArray ≠ rowValuesClaimed rowSecondNotArray := by
  refine ⟨rfl, rfl, ?_⟩
  intro h
  have e1 : rowValues rowSecondNotArray = some (JSValue.vNum 7) := rfl
  have e2 : rowValuesClaimed rowSecondNotArray =
      some (JSValue.vArr [.vNum 3, .vNum 7]) := rfl
  rw [e1, e2] at h
  injection h with h1
  cases h1

/-- C4 (amended).  The values array used for zipping is the row's element
at index 1 whenever the row is an array with more than one element —
whether or not that element is itself an array — and the flattening of the
row otherwise; the code's rule agrees with the claim's rule whenever the
second element is an array, and on every row with at most one element. -/
theorem rowValues_second_element_rule :
    (∀ xs : List JSValue, xs.length > 1 →
      rowValues (.vArr xs) = some (xs.getD 1 .vUndefined)) ∧
    (∀ xs : List JSValue, xs.length ≤ 1 →
      rowValues (.vArr xs) = some (.vArr (jsFlat xs))) ∧
    (∀ (xs vs : List JSValue), xs.getD 1 .vUndefined = .vArr vs →
      rowValues (.vArr xs) = rowValuesClaimed (.vArr xs)) ∧
    (∀ xs : List JSValue, xs.length ≤ 1 →
      rowValues (.vArr xs) = rowValuesClaimed (.vArr xs)) := by
  refine ⟨?_, ?_, ?_, ?_⟩
  · intro xs h
    simp only [rowValues]
    rw [if_pos h]
  · intro xs h
    simp only [rowValues]
    rw [if_neg (by omega)]
  · intro xs vs h
    by_cases hlen : xs.length > 1
    · simp only [rowValues, rowValuesClaimed]
      rw [if_pos hlen, h]
    · have h1 : xs.getD 1 .vUndefined = .vUndefined := by
        apply List.getD_eq_default
        omega
      rw [h1] at h
      cases h
  · intro xs h
    have h1 : xs.getD 1 .vUndefined = .vUndefined := by
      apply List.getD_eq_default
      omega
    simp only [rowValues, rowValuesClaimed]
    rw [if_neg (by omega), h1]

/-- Witness for the amended C4: the element at index 1 is used on a
concrete long row, and a concrete one-element row is flattened. -/
theorem rowValues_second_element_rule_witness :
    rowValues (.vArr [.vNum 3, .vArr [.vNum 7]]) = some (.vArr [.vNum 7]) ∧
    rowValues (.vArr [.vArr [.vNum 5]]) = some (.vArr [.vNum 5]) ∧
    rowValues (.vArr [.vArr [.vNum 5]]) = rowValuesClaimed (.vArr [.vArr [.vNum 5]]) :=
  ⟨rowValues_second_element_rule.1 [.vNum 3, .vArr [.vNum 7]] (by decide),
   rowValues_second_element_rule.2.1 [.vArr [.vNum 5]] (by decide),
   rowValues_second_element_rule.2.2.2 [.vArr [.vNum 5]] (by decide)⟩

/-- A cookie jar of strings is joined successfully. -/
theorem mapOption_asStr_map (cs : List String) :
    mapOption asStr (cs.map JSValue.vStr) = some cs := by
  induction cs with
  | nil => rfl
  | cons c cs ih => simp [mapOption, asStr, ih]

/-- C8.  The header object of `authenticatedRequest` always carries
`Cookie` equal to the session's joined cookie jar — a caller-supplied
`Cookie` header can never replace it — includes every caller-supplied
header under its own key, and carries `Accept: application/json` unless
the caller supplied an `Accept` header of their own. -/
theorem authenticatedRequest_header_merge
    (callerHeaders : List (String × JSValue)) (ch : JSValue)
    (hnd : (callerHeaders.map Prod.fst).Nodup) :
    (∀ (cs : List String) (g : JSValue),
      sessionCookieHeader ⟨.vArr (cs.map JSValue.vStr), g⟩ =
        some (.vStr (joinCookies cs))) ∧
    List.lookup "Cookie" (buildHeaders callerHeaders ch) = some ch ∧
    (∀ (k : String) (v : JSValue), (k, v) ∈ callerHeaders → k ≠ "Cookie" →
      List.lookup k (buildHeaders callerHeaders ch) = some v) ∧
    ("Accept" ∉ callerHeaders.map Prod.fst →
      List.lookup "Accept" (buildHeaders callerHeaders ch) =
        some (.vStr "application/json")) := by
  refine ⟨?_, ?_, ?_, ?_⟩
  · intro cs g
    show Option.map (fun ss => JSValue.vStr (joinCookies ss))
      (mapOption asStr (cs.map JSValue.vStr)) = some (.vStr (joinCookies cs))
    rw [mapOption_asStr_map]
    rfl
  · unfold buildHeaders
    exact lookup_objSet_self _ _ _
  · intro k v hmem hne
    unfold buildHeaders
    rw [lookup_objSet_ne _ _ _ _ hne, lookup_foldl_objSet,
      lastAssoc_of_nodup k v callerHeaders hnd hmem]
  · intro habs
    unfold buildHeaders
    rw [lookup_objSet_ne _ _ _ _ (by decide), lookup_foldl_objSet,
      lastAssoc_none_of_not_key _ _ habs]
    rfl

/-- Witness for C8: at a concrete caller header list carrying its own
`Cookie` and a custom header, the final object keeps the session cookie,
the custom header survives, `Accept` defaults, and a concrete string jar
joins to its trimmed parts. -/
theorem authenticatedRequest_header_merge_witness :
    List.lookup "Cookie" (buildHeaders
        [("X-Req", .vStr "1"), ("Cookie", .vStr "evil")] (.vStr "sid=1")) =
      some (.vStr "sid=1") ∧
    List.lookup "X-Req" (buildHeaders
        [("X-Req", .vStr "1"), ("Cookie", .vStr "evil")] (.vStr "sid=1")) =
      some (.vStr "1") ∧
    List.lookup "Accept" (buildHeaders
        [("X-Req", .vStr "1"), ("Cookie", .vStr "evil")] (.vStr "sid=1")) =
      some (.vStr "application/json") ∧
    sessionCookieHeader ⟨.vArr [.vStr "sid=1; Path=/", .vStr "t=2"], .vNum 1⟩ =
      some (.vStr "sid=1; t=2") :=
  ⟨(authenticatedRequest_header_merge
      [("X-Req", .vStr "1"), ("Cookie", .vStr "evil")] (.vStr "sid=1")
      (by decide)).2.1,
   (authenticatedRequest_header_merge
      [("X-Req", .vStr "1"), ("Cookie", .vStr "evil")] (.vStr "sid=1")
      (by decide)).2.2.1 "X-Req" (.vStr "1") (List.mem_cons_self _ _) (by decide),
   (authenticatedRequest_header_merge
      [("X-Req", .vStr "1"), ("Cookie", .vStr "evil")] (.vStr "sid=1")
      (by decide)).2.2.2 (by decide),
   (authenticatedRequest_header_merge [] (.vStr "x") (by decide)).1
      ["sid=1; Path=/", "t=2"] (.vNum 1)⟩

/-- `authenticatedRequest` can only succeed with the session it was
given. -/
theorem authenticatedRequest_ok_session (env : HttpEnv) (s : Session) (url : String)
    (callerHeaders : List (String × JSValue)) (r : Response) (s2 : Session)
    (h : authenticatedRequest env s url callerHeaders = .ok (r, s2)) : s2 = s := by
  unfold authenticatedRequest at h
  cases hsc : sessionCookieHeader s with
  | none =>
    rw [hsc] at h
    cases h
  | some ch =>
    rw [hsc] at h
    simp only at h
    split_ifs at h
    injection h with h1
    injection h1 with h2 h3
    exact h3.symm

/-- An operation whose successes all carry the original session leaves the
state unchanged. -/
theorem finalSession_eq_of_inner {α : Type} (s : Session)
    (e : Except ApiError (α × Session))
    (h : ∀ (x : α) (s2 : Session), e = .ok (x, s2) → s2 = s) :
    finalSession s e = s := by
  cases e with
  | error _ => rfl
  | ok p =>
    cases p with
    | mk x s2 => exact h x s2 rfl

/-- Session threading through one accessor: a request step followed by a
response-processing continuation that preserves the session it is
handed. -/
theorem accessor_step_session {β : Type} (env : HttpEnv) (s : Session) (u : String)
    (g : Response → Session → Except ApiError (β × Session))
    (hg : ∀ (r : Response) (s1 : Session) (x : β) (s2 : Session),
      g r s1 = .ok (x, s2) → s2 = s1)
    (x : β) (s2 : Session)
    (h : (match authenticatedRequest env s u [] with
          | Except.error e => Except.error e
          | Except.ok (r, s1) => g r s1) = Except.ok (x, s2)) : s2 = s := by
  cases har : authenticatedRequest env s u [] with
  | error e =>
    rw [har] at h
    cases h
  | ok pr =>
    cases pr with
    | mk r s1 =>
      rw [har] at h
      rw [hg r s1 x s2 h]
      exact authenticatedRequest_ok_session env s u [] r s1 har

/-- C9.  Every accessor operation leaves the session state unchanged: in
the state-passing embedding each of them returns exactly the session it
was given (so the gym identifier set by the constructor and the cookie jar
are never mutated outside the login flow; `toJSON` is a pure function of
the session in this embedding and cannot mutate it). -/
theorem session_state_immutable (env : HttpEnv) (parse : String → Option JSValue)
    (enc : String → String) (s : Session) (url : String)
    (callerHeaders : List (String × JSValue)) (id : JSValue)
    (p c : Option Nat) (q : Option String) :
    finalSession s (authenticatedRequest env s url callerHeaders) = s ∧
    finalSession s (allReports env parse s p c) = s ∧
    finalSession s (reportById env parse s id p c) = s ∧
    finalSession s (members env parse enc s p c q) = s ∧
    finalSession s (memberById env parse s id) = s ∧
    finalSession s (financials env parse s) = s := by
  refine ⟨?_, ?_, ?_, ?_, ?_, ?_⟩
  · apply finalSession_eq_of_inner
    intro x s2 h
    exact authenticatedRequest_ok_session env s url callerHeaders x s2 h
  · apply finalSession_eq_of_inner
    intro x s2 h
    refine accessor_step_session env s _
      (fun resp s1 =>
        match parse resp.body with
        | none => .error .parseFault
        | some data =>
          match asArr (getField data "collection") with
          | none => .error .typeFault
          | some coll =>
            .ok (coll.map (fun report =>
              JSValue.vObj [("id", getField report "id"),
                ("name", getField report "name")]), s1))
      ?_ x s2 h
    intro r s1 x' s2' hh
    dsimp only at hh
    split at hh
    · cases hh
    · split at hh
      · cases hh
      · injection hh with h1
        injection h1 with h2 h3
        exact h3.symm
  · apply finalSession_eq_of_inner
    intro x s2 h
    refine accessor_step_session env s _
      (fun resp s1 =>
        match parse resp.body with
        | none => .error .parseFault
        | some data =>
          match reportRows data with
          | none => .error .typeFault
          | some out => .ok (out, s1))
      ?_ x s2 h
    intro r s1 x' s2' hh
    dsimp only at hh
    split at hh
    · cases hh
    · split at hh
      · cases hh
      · injection hh with h1
        injection h1 with h2 h3
        exact h3.symm
  · apply finalSession_eq_of_inner
    intro x s2 h
    refine accessor_step_session env s _
      (fun resp s1 =>
        match parse resp.body with
        | none => .error .parseFault
        | some data =>
          match asArr (getField data "collection") with
          | none => .error .typeFault
          | some coll => .ok (coll.map formatMemberData, s1))
      ?_ x s2 h
    intro r s1 x' s2' hh
    dsimp only at hh
    split at hh
    · cases hh
    · split at hh
      · cases hh
      · injection hh with h1
        injection h1 with h2 h3
        exact h3.symm
  · apply finalSession_eq_of_inner
    intro x s2 h
    refine accessor_step_session env s _
      (fun resp s1 =>
        match parse resp.body with
        | none => .error .parseFault
        | some data => .ok (formatMemberData data, s1))
      ?_ x s2 h
    intro r s1 x' s2' hh
    dsimp only at hh
    split at hh
    · cases hh
    · injection hh with h1
      injection h1 with h2 h3
      exact h3.symm
  · apply finalSession_eq_of_inner
    intro x s2 h
    refine accessor_step_session env s _
      (fun resp s1 =>
        match parse resp.body with
        | none => .error .parseFault
        | some data => .ok (data, s1))
      ?_ x s2 h
    intro r s1 x' s2' hh
    dsimp only at hh
    split at hh
    · cases hh
    · injection hh with h1
      injection h1 with h2 h3
      exact h3.symm

/-- Defaulted indexing commutes with wrapping strings as values. -/
theorem getD_map_vStr (labels : List String) (i : Nat) (h : i < labels.length) :
    (labels.map JSValue.vStr).getD i .vUndefined = .vStr (labels.getD i "") := by
  induction labels generalizing i with
  | nil => simp at h
  | cons l ls ih =>
    cases i with
    | zero => simp
    | succ i =>
      rw [List.map_cons, List.getD_cons_succ, List.getD_cons_succ]
      exact ih i (by rw [List.length_cons] at h; omega)

/-- Coercing string labels to keys is the identity. -/
theorem map_jsKey_vStr (labels : List String) :
    (labels.map JSValue.vStr).map jsKey = labels := by
  induction labels with
  | nil => rfl
  | cons l ls ih => simp [jsKey, ih]

/-- C3.  On a payload with column definitions and a rows list (each row an
array whose selected values are an array), `reportById` produces exactly
one object per input row; each output object's key set equals the set of
column labels; and every column position at or beyond the length of a
row's values array is mapped to `null` in that row's object. -/
theorem reportById_row_shape
    (data : JSValue) (cols rows : List JSValue) (labels : List String)
    (hc : getField data "report_columns_attributes" = .vArr cols)
    (hl : cols.map (fun col => getField col "label") = labels.map JSValue.vStr)
    (hr : getField data "rows" = .vArr rows)
    (hv : ∀ row ∈ rows, ∃ vs : List JSValue, rowValues row = some (.vArr vs)) :
    ∃ out : List JSValue, reportRows data = some out ∧
      out.length = rows.length ∧
      (∀ o ∈ out, ∀ k : String, (objLookup o k).isSome = true ↔ k ∈ labels) ∧
      (∀ (j : Nat) (vs : List JSValue),
        j < rows.length → rowValues (rows.getD j (.vArr [])) = some (.vArr vs) →
        ∀ i : Nat, vs.length ≤ i → i < labels.length →
          objLookup (out.getD j .vUndefined) (labels.getD i "") = some .vNull) := by
  have hrr : reportRows data =
      mapOption (fun row => (rowValues row).map
        (fun values => JSValue.vObj
          (assignColumns values (labels.map JSValue.vStr) 0 []))) rows := by
    unfold reportRows
    rw [hc, hr]
    show mapOption (fun row => (rowValues row).map
      (fun values => JSValue.vObj
        (assignColumns values (cols.map (fun col => getField col "label")) 0 []))) rows = _
    rw [hl]
  have hall : ∀ row ∈ rows,
      ((rowValues row).map (fun values => JSValue.vObj
        (assignColumns values (labels.map JSValue.vStr) 0 []))).isSome = true := by
    intro row hrow
    rcases hv row hrow with ⟨vs, hvs⟩
    rw [hvs]
    rfl
  rcases mapOption_spec (fun row => (rowValues row).map
      (fun values => JSValue.vObj
        (assignColumns values (labels.map JSValue.vStr) 0 []))) rows hall with
    ⟨out, hmap, hlen, hmem, hidx⟩
  refine ⟨out, by rw [hrr]; exact hmap, hlen, ?_, ?_⟩
  · intro o ho k
    rcases hmem o ho with ⟨row, hrow, hfo⟩
    rcases hv row hrow with ⟨vs, hvs⟩
    rw [hvs, Option.map_some'] at hfo
    have ho2 : o = JSValue.vObj
        (assignColumns (.vArr vs) (labels.map JSValue.vStr) 0 []) :=
      (Option.some.inj hfo).symm
    rw [ho2]
    show (List.lookup k
      (assignColumns (.vArr vs) (labels.map JSValue.vStr) 0 [])).isSome = true ↔
      k ∈ labels
    rw [lookup_assignColumns]
    have hiff := lastIdxOf_isSome_iff k (labels.map JSValue.vStr)
    rw [map_jsKey_vStr] at hiff
    cases hli : lastIdxOf k (labels.map JSValue.vStr) with
    | some j =>
      rw [hli] at hiff
      simp only [Option.isSome_some] at hiff ⊢
      simpa using hiff
    | none =>
      rw [hli] at hiff
      simp only [Option.isSome_none] at hiff
      simp only [List.lookup_nil, Option.isSome_none]
      constructor
      · intro hfalse
        cases hfalse
      · intro hmem2
        exact absurd (hiff.mpr hmem2) (by simp)
  · intro j vs hj hvs i hvi hil
    have hfj := hidx j (.vArr []) .vUndefined hj
    rw [hvs, Option.map_some'] at hfj
    have ho : out.getD j .vUndefined = JSValue.vObj
        (assignColumns (.vArr vs) (labels.map JSValue.vStr) 0 []) :=
      (Option.some.inj hfj).symm
    rw [ho]
    show List.lookup (labels.getD i "")
      (assignColumns (.vArr vs) (labels.map JSValue.vStr) 0 []) = some JSValue.vNull
    rw [lookup_assignColumns]
    have hglen : i < (labels.map JSValue.vStr).length := by
      rw [List.length_map]
      exact hil
    have hkey : jsKey ((labels.map JSValue.vStr).getD i .vUndefined) =
        labels.getD i "" := by
      rw [getD_map_vStr labels i hil]
      rfl
    rcases lastIdxOf_ge (labels.getD i "") (labels.map JSValue.vStr) i .vUndefined
        hglen hkey with ⟨j', hj', hij'⟩
    rw [hj']
    have hcv : columnValue (.vArr vs) (0 + j') = .vNull := by
      unfold columnValue
      have hidx2 : jsIndex (.vArr vs) (0 + j') = .vUndefined := by
        show vs.getD (0 + j') .vUndefined = .vUndefined
        apply List.getD_eq_default
        omega
      rw [hidx2]
      rfl
    show some (columnValue (.vArr vs) (0 + j')) = some JSValue.vNull
    rw [hcv]

/-- Witness for C3: a concrete two-column payload with one long row (values
at index 1) and one short row (flattened, one value) yields two objects
with keys A and B, and the short row's trailing key maps to null. -/
theorem reportById_row_shape_witness :
    ∃ out : List JSValue, reportRows reportPayload = some out ∧
      out.length = reportPayloadRows.length ∧
      (∀ o ∈ out, ∀ k : String,
        (objLookup o k).isSome = true ↔ k ∈ ["A", "B"]) ∧
      (∀ (j : Nat) (vs : List JSValue),
        j < reportPayloadRows.length →
        rowValues (reportPayloadRows.getD j (.vArr [])) = some (.vArr vs) →
        ∀ i : Nat, vs.length ≤ i → i < (["A", "B"] : List String).length →
          objLookup (out.getD j .vUndefined) ((["A", "B"] : List String).getD i "") =
            some .vNull) :=
  reportById_row_shape reportPayload reportPayloadCols reportPayloadRows
    ["A", "B"] rfl rfl rfl
    (by
      intro row hrow
      cases hrow with
      | head =>
        exact ⟨[.vNum 1], rfl⟩
      | tail _ h2 =>
        cases h2 with
        | head => exact ⟨[.vNum 5], rfl⟩
        | tail _ h3 => cases h3)

end Clubworx
